import Mathlib

/-!
# Verification of the hledger report parsing/aggregation core

Shallow embedding of the pure parsing/aggregation core of the hledger
wrapper module (`extractAmount`, `dateToYearMonth`, `getSpendingBreakdown`,
`getFinancialTrends`, `getFinancialSummary`).  JavaScript numbers are
modelled as rationals (`ℚ`); `Math.round` is `⌊x + 1/2⌋` (round half toward
+∞, which is the ECMAScript semantics, including `Math.round (-0.5) = 0`);
`Math.abs` is `|·|`; JS `arr[i] ?? []` on lists is `List.getD i []`.
The external `hledger` process and JSON parsing are the decoders' inputs:
each decoder is modelled as a pure function of the already-parsed report
value, exactly as the source consumes it.
-/

namespace Hledger

/-- ECMAScript `Math.round` on rationals: round half toward +∞. -/
def mathRound (x : ℚ) : ℚ := ((⌊x + 1/2⌋ : ℤ) : ℚ)

/-- The source idiom `Math.round(x * 100) / 100`: round to 2 decimals. -/
def round2 (x : ℚ) : ℚ := mathRound (x * 100) / 100

/-- Model of `extractAmount` (src: lines 28-32) on well-formed amount entries, each
entry abstracted to its `aquantity.floatingPoint` value.
Empty list ⇒ 0; otherwise round the first entry's quantity to 2 decimals. -/
def extractAmount : List ℚ → ℚ
  | [] => 0
  | q :: _ => round2 q

/-- Raw nested quantity object: the `floatingPoint` field may be absent. -/
structure AQuantity where
  floatingPoint : Option ℚ
deriving DecidableEq

/-- Raw amount entry: the `aquantity` field may be absent. -/
structure AmountEntry where
  aquantity : Option AQuantity
deriving DecidableEq

/-- A JavaScript number result: either an actual number or `NaN`. -/
inductive JsNum
  | nan
  | num (q : ℚ)
deriving DecidableEq

/-- Model of `extractAmount` on raw entries, with the JS error behaviour made
explicit: reading `.floatingPoint` off an absent `aquantity` throws a
`TypeError`; an absent `floatingPoint` yields `undefined`, and
`undefined * 100` is `NaN`, which `Math.round` and `/ 100` preserve. -/
def extractAmountRaw : List AmountEntry → Except String JsNum
  | [] => .ok (.num 0)
  | e :: _ =>
    match e.aquantity with
    | none => .error "TypeError: cannot read floatingPoint of undefined"
    | some aq =>
      match aq.floatingPoint with
      | none => .ok .nan
      | some q => .ok (.num (round2 q))

/-- Spec-side rounding: round half AWAY FROM ZERO to 2 decimals
(the spec's words for the Amount Extractor's rounding). -/
def roundHalfAwayFromZero2 (x : ℚ) : ℚ :=
  if 0 ≤ x then ((⌊x * 100 + 1/2⌋ : ℤ) : ℚ) / 100
  else -(((⌊-x * 100 + 1/2⌋ : ℤ) : ℚ) / 100)

/-! ## Date handling -/

/-- The two period-date encodings found in `cbrDates`:
`Exact` carries an ISO date string, `ModifiedJulianDay` an integer. -/
inductive DateEnc
  | str (s : String)
  | num (n : ℤ)
deriving DecidableEq

/-- Zero-pad a natural number to `k` digits. -/
def padZeros (k n : ℕ) : String :=
  let s := toString n
  String.mk (List.replicate (k - s.length) '0') ++ s

/-- Proleptic Gregorian calendar date (year, month, day) of a count of days
since 1970-01-01, as used by ECMAScript `Date`/`toISOString` (UTC).
Standard civil-from-days algorithm, valid for all integers. -/
def civilFromDays (z0 : ℤ) : ℤ × ℕ × ℕ :=
  let z := z0 + 719468
  let era := Int.fdiv z 146097
  let doe := (z - era * 146097).toNat
  let yoe := (doe - doe / 1460 + doe / 36524 - doe / 146096) / 365
  let doy := doe - (365 * yoe + yoe / 4 - yoe / 100)
  let mp := (5 * doy + 2) / 153
  let d := doy - (153 * mp + 2) / 5 + 1
  let m := if mp < 10 then mp + 3 else mp - 9
  let y : ℤ := (yoe : ℤ) + era * 400 + (if mp < 10 then 0 else 1)
  (y, m, d)

/-- Days since 1970-01-01 of a proleptic Gregorian date (inverse of
`civilFromDays`; standard days-from-civil algorithm). -/
def daysFromCivil (y : ℤ) (m d : ℕ) : ℤ :=
  let y' := if m ≤ 2 then y - 1 else y
  let era := Int.fdiv y' 400
  let yoe := (y' - era * 400).toNat
  let mp := (m + 9) % 12
  let doy := (153 * mp + 2) / 5 + d - 1
  let doe := yoe * 365 + yoe / 4 - yoe / 100 + doy
  era * 146097 + (doe : ℤ) - 719468

/-- The Modified Julian Day number of a calendar date: days since
1858-11-17, the day-offset encoding hledger uses (`ModifiedJulianDay`). -/
def mjdOfCivil (y : ℤ) (m d : ℕ) : ℤ := daysFromCivil y m d + 40587

/-- The exact ISO calendar-date string "YYYY-MM-DD" (years 0..9999). -/
def isoDateString (y m d : ℕ) : String :=
  padZeros 4 y ++ "-" ++ padZeros 2 m ++ "-" ++ padZeros 2 d

/-- First 7 characters of `new Date(ms).toISOString()` as a function of the
UTC day number: "YYYY-MM" for years 0..9999, and for years outside that
range ECMAScript uses the expanded form `±YYYYYY-...`, whose first 7
characters are the sign and the 6-digit year. -/
def isoFirst7 (epochDays : ℤ) : String :=
  let c := civilFromDays epochDays
  if 0 ≤ c.1 ∧ c.1 ≤ 9999 then padZeros 4 c.1.toNat ++ "-" ++ padZeros 2 c.2.1
  else if 9999 < c.1 then "+" ++ padZeros 6 c.1.toNat
  else "-" ++ padZeros 6 (-c.1).toNat

/-- Model of `dateToYearMonth` (src: lines 34-43).  A string tag (`Exact`) is cut to
its first 7 characters.  A numeric tag (`ModifiedJulianDay`) is converted
by the source as `new Date((contents - 2440587.5) * 86400000)`, then
`toISOString().slice(0, 7)`; the UTC day of that instant is the floor of
the millisecond value divided by 86400000. -/
def dateToYearMonth : DateEnc → String
  | .str s => s.take 7
  | .num n => isoFirst7 ⌊((n : ℚ) - 2440587.5) * 86400000 / 86400000⌋

/-! ## Category breakdown (`getSpendingBreakdown`, src: lines 81-114) -/

structure CategoryBreakdown where
  name : String
  amount : ℚ
  percentage : ℚ
deriving DecidableEq

structure SpendingBreakdownResult where
  categories : List CategoryBreakdown
  total : ℚ
  period : String
deriving DecidableEq

/-- One row of a flat balance report: `[fullName, displayName, depth,
amounts]`, amounts abstracted to their quantity values. -/
structure BalRow where
  fullName : String
  displayName : String
  depth : ℤ
  amounts : List ℚ
deriving DecidableEq

/-- The parsed flat balance report `[rows, totals]`. -/
structure BalJson where
  rows : List BalRow
  totals : List ℚ
deriving DecidableEq

/-- The source idiom `fullName.replace(/^expenses:/, "")`: strip one leading "expenses:". -/
def stripExpenses (s : String) : String :=
  if s.startsWith "expenses:" then s.drop 9 else s

/-- Pure core of `getSpendingBreakdown`: consumes the parsed report and the
requested period label. -/
def getSpendingBreakdown (j : BalJson) (period : String) :
    SpendingBreakdownResult :=
  let total := |extractAmount j.totals|
  let categories := j.rows.map (fun r =>
    let amount := |extractAmount r.amounts|
    { name := stripExpenses r.fullName
      amount := amount
      percentage :=
        if 0 < total then mathRound (amount / total * 10000) / 100 else 0 })
  { categories := categories, total := total, period := period }

/-! ## Period trends (`getFinancialTrends`, src: lines 116-178) -/

structure PeriodTrend where
  date : String
  income : ℚ
  expenses : ℚ
  net : ℚ
deriving DecidableEq

structure TrendsResult where
  periods : List PeriodTrend
deriving DecidableEq

/-- One row of a subreport: name plus one amounts-array per period column
(possibly fewer than the number of columns). -/
structure PRRow where
  prrName : String
  prrAmounts : List (List ℚ)
deriving DecidableEq

/-- A subreport: its rows and its own totals row's `prrTotal` field
(`prTotals.prrTotal`; unused by the trends decoder, used by the summary). -/
structure PReport where
  prRows : List PRRow
  prTotalsTotal : List ℚ
deriving DecidableEq

def emptyPReport : PReport := { prRows := [], prTotalsTotal := [] }

/-- The parsed compound balance report, keeping the fields the decoder
reads: `cbrDates` (pairs of period start/end date encodings) and
`cbrSubreports` (name, subreport, increases-total flag). -/
structure TrendsJson where
  cbrDates : List (DateEnc × DateEnc)
  cbrSubreports : List (String × PReport × Bool)
deriving DecidableEq

/-- Accessor for `cbrSubreports[i][1]`. -/
def subreportAt (j : TrendsJson) (i : ℕ) : PReport :=
  (j.cbrSubreports.getD i ("", emptyPReport, false)).2.1

/-- Revenue subreport: index 0, positionally identified. -/
def revenueSubreport (j : TrendsJson) : PReport := subreportAt j 0

/-- Expenses subreport: index 1, positionally identified. -/
def expensesSubreport (j : TrendsJson) : PReport := subreportAt j 1

/-- The column-`i` accumulation loop body:
`for (row of rows) acc += extractAmount(row.prrAmounts[i] ?? [])`. -/
def colSum (rows : List PRRow) (i : ℕ) : ℚ :=
  rows.foldl (fun s r => s + extractAmount (r.prrAmounts.getD i [])) 0

/-- Pure core of `getFinancialTrends`: consumes the parsed compound
report. -/
def getFinancialTrends (j : TrendsJson) : TrendsResult :=
  let dates := j.cbrDates.map (fun p => dateToYearMonth p.1)
  let rev := revenueSubreport j
  let exps := expensesSubreport j
  { periods := dates.mapIdx (fun i date =>
      let income := |round2 (colSum rev.prRows i)|
      let expenses := |round2 (colSum exps.prRows i)|
      { date := date, income := income, expenses := expenses,
        net := round2 (income - expenses) }) }

/-! ## Financial summary (`getFinancialSummary`, src: lines 180-262) -/

structure TopExpense where
  name : String
  amount : ℚ
deriving DecidableEq

structure FinancialSummaryResult where
  netWorth : ℚ
  totalIncome : ℚ
  totalExpenses : ℚ
  savingsRate : ℚ
  cashflow : ℚ
  topExpenses : List TopExpense
deriving DecidableEq

/-- The three parsed reports the summary combines: the balance sheet's
`cbrTotals.prrTotal`, the income statement's `cbrSubreports`, and the
rows of the `bal expenses --depth 2` report. -/
structure SummaryJson where
  bsTotalsTotal : List ℚ
  isSubreports : List (String × PReport × Bool)
  balRows : List BalRow
deriving DecidableEq

/-- Accessor for `isResult.cbrSubreports[i][1]`. -/
def isSubreportAt (j : SummaryJson) (i : ℕ) : PReport :=
  (j.isSubreports.getD i ("", emptyPReport, false)).2.1

/-- Pure core of `getFinancialSummary`: consumes the three parsed
reports. -/
def getFinancialSummary (j : SummaryJson) : FinancialSummaryResult :=
  let netWorth := extractAmount j.bsTotalsTotal
  let revenueReport := isSubreportAt j 0
  let expensesReport := isSubreportAt j 1
  let totalIncome := |extractAmount revenueReport.prTotalsTotal|
  let totalExpenses := |extractAmount expensesReport.prTotalsTotal|
  let savingsRate :=
    if 0 < totalIncome then
      mathRound ((totalIncome - totalExpenses) / totalIncome * 10000) / 100
    else 0
  let cashflow := mathRound ((totalIncome - totalExpenses) * 100) / 100
  let topExpenses := (j.balRows.take 5).map (fun r =>
    { name := stripExpenses r.fullName
      amount := |extractAmount r.amounts| : TopExpense })
  { netWorth := netWorth, totalIncome := totalIncome
    totalExpenses := totalExpenses, savingsRate := savingsRate
    cashflow := cashflow, topExpenses := topExpenses }

/-! ## Rounding lemmas -/

lemma floor_half_q : ⌊(1/2 : ℚ)⌋ = 0 := by
  rw [Int.floor_eq_iff]
  norm_num

lemma mathRound_intCast (n : ℤ) : mathRound ((n : ℚ)) = (n : ℚ) := by
  unfold mathRound
  rw [Int.floor_int_add, floor_half_q, add_zero]

lemma round2_intCast_div (n : ℤ) : round2 ((n : ℚ) / 100) = (n : ℚ) / 100 := by
  unfold round2
  rw [div_mul_cancel₀ _ (by norm_num : (100 : ℚ) ≠ 0), mathRound_intCast]

lemma round2_eq_self {x : ℚ} (h : ∃ n : ℤ, x = (n : ℚ) / 100) :
    round2 x = x := by
  obtain ⟨n, rfl⟩ := h
  exact round2_intCast_div n

lemma extractAmount_div100 (l : List ℚ) :
    ∃ n : ℤ, extractAmount l = (n : ℚ) / 100 := by
  cases l with
  | nil => exact ⟨0, by simp [extractAmount]⟩
  | cons q t => exact ⟨⌊q * 100 + 1/2⌋, by simp [extractAmount, round2, mathRound]⟩

lemma list_sum_div100 (l : List ℚ) (h : ∀ x ∈ l, ∃ n : ℤ, x = (n : ℚ) / 100) :
    ∃ n : ℤ, l.sum = (n : ℚ) / 100 := by
  induction l with
  | nil => exact ⟨0, by simp⟩
  | cons x t ih =>
    obtain ⟨a, ha⟩ := h x (List.mem_cons_self x t)
    obtain ⟨b, hb⟩ := ih (fun y hy => h y (List.mem_cons_of_mem _ hy))
    refine ⟨a + b, ?_⟩
    rw [List.sum_cons, ha, hb]
    push_cast
    ring

lemma foldl_add_map {α : Type} (f : α → ℚ) (a : ℚ) (l : List α) :
    l.foldl (fun s r => s + f r) a = a + (l.map f).sum := by
  induction l generalizing a with
  | nil => simp
  | cons x t ih => simp [ih (a + f x), add_assoc]

lemma colSum_eq_sum (rows : List PRRow) (i : ℕ) :
    colSum rows i =
      (rows.map (fun r => extractAmount (r.prrAmounts.getD i []))).sum := by
  exact (foldl_add_map (fun r : PRRow => extractAmount (r.prrAmounts.getD i []))
    0 rows).trans (zero_add _)

lemma round2_colSum (rows : List PRRow) (i : ℕ) :
    round2 (colSum rows i) = colSum rows i := by
  apply round2_eq_self
  rw [colSum_eq_sum]
  apply list_sum_div100
  intro x hx
  obtain ⟨r, _, rfl⟩ := List.mem_map.mp hx
  exact extractAmount_div100 _

/-! ## List access lemmas -/

lemma getD_of_lt {α : Type} (l : List α) (i : ℕ) (hi : i < l.length) (d : α) :
    l.getD i d = l.get ⟨i, hi⟩ := by
  rw [List.getD_eq_getElem?_getD, List.getElem?_eq_getElem hi, Option.getD_some,
    List.get_eq_getElem]

lemma mapIdx_getD {α β : Type} (f : ℕ → α → β) (l : List α) (i : ℕ)
    (hi : i < l.length) (d : β) :
    (l.mapIdx f).getD i d = f i (l.get ⟨i, hi⟩) := by
  have h' : i < (l.mapIdx f).length := by
    rw [List.length_mapIdx]
    exact hi
  rw [List.getD_eq_getElem?_getD, List.getElem?_eq_getElem h', Option.getD_some]
  exact List.get_mapIdx l f i hi h'

/-! ## Trends decoder characterization -/

lemma trends_periods_def (j : TrendsJson) :
    (getFinancialTrends j).periods =
      (j.cbrDates.map (fun p => dateToYearMonth p.1)).mapIdx (fun i date =>
        { date := date
          income := |round2 (colSum (revenueSubreport j).prRows i)|
          expenses := |round2 (colSum (expensesSubreport j).prRows i)|
          net := round2 (|round2 (colSum (revenueSubreport j).prRows i)| -
            |round2 (colSum (expensesSubreport j).prRows i)|) }) := rfl

lemma trends_period_getD (j : TrendsJson) (i : ℕ)
    (hi : i < j.cbrDates.length) (d : PeriodTrend) :
    (getFinancialTrends j).periods.getD i d =
      { date := dateToYearMonth
          ((j.cbrDates.getD i (DateEnc.str "", DateEnc.str "")).1)
        income := |round2 (colSum (revenueSubreport j).prRows i)|
        expenses := |round2 (colSum (expensesSubreport j).prRows i)|
        net := round2 (|round2 (colSum (revenueSubreport j).prRows i)| -
          |round2 (colSum (expensesSubreport j).prRows i)|) } := by
  have hm : i < (j.cbrDates.map (fun p => dateToYearMonth p.1)).length := by
    rw [List.length_map]
    exact hi
  rw [trends_periods_def, mapIdx_getD _ _ i hm d, getD_of_lt _ _ hi]
  simp [List.get_eq_getElem, List.getElem_map]

lemma round2_zero : round2 0 = 0 := by
  unfold round2 mathRound
  norm_num

lemma colSum_of_empty (rows : List PRRow) (i : ℕ)
    (h : ∀ r ∈ rows, r.prrAmounts.getD i [] = []) : colSum rows i = 0 := by
  rw [colSum_eq_sum]
  apply List.sum_eq_zero
  intro x hx
  obtain ⟨r, hr, rfl⟩ := List.mem_map.mp hx
  rw [h r hr]
  rfl

/-! ## Claim theorems -/

/-- C1 (code bug): the Date Normalizer does NOT produce the same "YYYY-MM"
key from the two encodings of one calendar date.  For D = 2024-10-05 the
day-offset (Modified Julian Day, day 0 = 1858-11-17) encoding is 60588; the
string encoding normalizes to "2024-10", but the code treats the MJD as a
Julian Date — subtracting 2440587.5 instead of 40587 — and produces
"-004547" (a year near 4546 BC).  Subtracting the correct Unix-epoch offset
40587 would give "2024-10". -/
theorem dateNormalizer_mjd_key_mismatch :
    mjdOfCivil 2024 10 5 = 60588 ∧
    isoDateString 2024 10 5 = "2024-10-05" ∧
    dateToYearMonth (DateEnc.str (isoDateString 2024 10 5)) = "2024-10" ∧
    dateToYearMonth (DateEnc.num (mjdOfCivil 2024 10 5)) = "-004547" ∧
    dateToYearMonth (DateEnc.num (mjdOfCivil 2024 10 5)) ≠
      dateToYearMonth (DateEnc.str (isoDateString 2024 10 5)) ∧
    isoFirst7 (mjdOfCivil 2024 10 5 - 40587) = "2024-10" := by
  have hm : mjdOfCivil 2024 10 5 = 60588 := by decide
  have hf : ⌊(((60588 : ℤ) : ℚ) - 2440587.5) * 86400000 / 86400000⌋ =
      (-2380000 : ℤ) := by norm_num
  have h3 : dateToYearMonth (DateEnc.str (isoDateString 2024 10 5)) =
      "2024-10" := by decide
  have h4 : dateToYearMonth (DateEnc.num (mjdOfCivil 2024 10 5)) =
      "-004547" := by
    show isoFirst7 ⌊((mjdOfCivil 2024 10 5 : ℚ) - 2440587.5) *
      86400000 / 86400000⌋ = "-004547"
    rw [hm, hf]
    decide
  refine ⟨hm, by decide, h3, h4, ?_, by decide⟩
  rw [h3, h4]
  decide

/-- C2 counterexample: the Amount Extractor does not round half away from
zero.  At quantity -0.005 the code (JS `Math.round`, half toward +∞) gives
0, while half-away-from-zero gives -0.01. -/
theorem extractAmount_half_away_counterexample :
    extractAmount [-(1/200)] = 0 ∧
    roundHalfAwayFromZero2 (-(1/200)) = -(1/100) ∧
    extractAmount [-(1/200)] ≠ roundHalfAwayFromZero2 (-(1/200)) := by
  have h1 : extractAmount [-(1/200)] = 0 := by
    show round2 (-(1/200)) = 0
    unfold round2 mathRound
    norm_num
  have h2 : roundHalfAwayFromZero2 (-(1/200)) = -(1/100) := by
    unfold roundHalfAwayFromZero2
    rw [if_neg (by norm_num)]
    norm_num
  refine ⟨h1, h2, ?_⟩
  rw [h1, h2]
  norm_num

/-- C2 (amended): the empty sequence yields exactly 0; a non-empty sequence
yields the first entry's quantity rounded to 2 decimals with JS
`Math.round` semantics (half toward +∞), which is within 1/200 of the
quantity, ignores all later entries, and coincides with
round-half-away-from-zero for every non-negative quantity. -/
theorem extractAmount_rounding_correct :
    extractAmount [] = 0 ∧
    ∀ (q : ℚ) (l : List ℚ),
      extractAmount (q :: l) = round2 q ∧
      extractAmount (q :: l) = extractAmount [q] ∧
      |extractAmount (q :: l) - q| ≤ 1/200 ∧
      (0 ≤ q → extractAmount (q :: l) = roundHalfAwayFromZero2 q) := by
  refine ⟨rfl, fun q l => ⟨rfl, rfl, ?_, ?_⟩⟩
  · show |round2 q - q| ≤ 1/200
    have h1 : ((⌊q * 100 + 1/2⌋ : ℤ) : ℚ) ≤ q * 100 + 1/2 := Int.floor_le _
    have h2 : q * 100 + 1/2 - 1 < ((⌊q * 100 + 1/2⌋ : ℤ) : ℚ) :=
      Int.sub_one_lt_floor _
    rw [abs_le]
    unfold round2 mathRound
    constructor <;> [linarith; linarith]
  · intro hq
    show round2 q = roundHalfAwayFromZero2 q
    unfold round2 mathRound roundHalfAwayFromZero2
    rw [if_pos hq]

/-- C2 witness: the theorem applied at quantity 3.456. -/
theorem extractAmount_rounding_correct_witness :
    (0 : ℚ) ≤ 3.456 ∧ extractAmount [(3.456 : ℚ)] = roundHalfAwayFromZero2 3.456 :=
  ⟨by norm_num,
    (extractAmount_rounding_correct.2 3.456 []).2.2.2 (by norm_num)⟩

/-- C8 counterexample: an entry whose `aquantity` is present but whose
`floatingPoint` field is missing does NOT fail loudly — the extractor
silently returns `NaN` (a non-numeric value), not a decode error. -/
theorem extractAmountRaw_nan_counterexample :
    extractAmountRaw [{ aquantity := some { floatingPoint := none } }] =
      Except.ok JsNum.nan := rfl

/-- C8 (amended): the extractor never throws on the well-formed empty
sequence; if the first entry lacks the `aquantity` field it throws a
`TypeError` (a loud failure); but if `aquantity` is present with its
`floatingPoint` field missing, it silently returns `NaN` instead of
erroring; with both fields present it returns the rounded quantity. -/
theorem extractAmountRaw_error_behaviour :
    extractAmountRaw [] = Except.ok (JsNum.num 0) ∧
    ∀ (e : AmountEntry) (l : List AmountEntry),
      (e.aquantity = none →
        ∃ msg, extractAmountRaw (e :: l) = Except.error msg) ∧
      (e.aquantity = some { floatingPoint := none } →
        extractAmountRaw (e :: l) = Except.ok JsNum.nan) ∧
      (∀ q, e.aquantity = some { floatingPoint := some q } →
        extractAmountRaw (e :: l) = Except.ok (JsNum.num (extractAmount [q]))) := by
  refine ⟨rfl, fun e l => ?_⟩
  obtain ⟨aq⟩ := e
  refine ⟨?_, ?_, ?_⟩
  · intro h
    cases h
    exact ⟨_, rfl⟩
  · intro h
    cases h
    rfl
  · intro q h
    cases h
    rfl

/-- C8 witness: the theorem applied to a first entry with no `aquantity`
and to a fully-formed entry with quantity 5. -/
theorem extractAmountRaw_error_behaviour_witness :
    (∃ msg, extractAmountRaw [{ aquantity := none }] = Except.error msg) ∧
    extractAmountRaw [{ aquantity := some { floatingPoint := some 5 } }] =
      Except.ok (JsNum.num (extractAmount [5])) :=
  ⟨(extractAmountRaw_error_behaviour.2 { aquantity := none } []).1 rfl,
    (extractAmountRaw_error_behaviour.2
      { aquantity := some { floatingPoint := some 5 } } []).2.2 5 rfl⟩

/-- C3: the Period Trend decoder returns one output period per input
period-date column, in column order; column `i` has income equal to the
absolute value of the sum over all revenue-subreport rows of the Amount
Extractor applied to the row's `i`-th amounts entry (or the empty sequence),
expenses the analogous expense-subreport sum, and net the difference
rounded to 2 decimals. -/
theorem getFinancialTrends_columns_correct (j : TrendsJson) :
    (getFinancialTrends j).periods.length = j.cbrDates.length ∧
    ∀ (i : ℕ), i < j.cbrDates.length →
      (getFinancialTrends j).periods.getD i
          { date := "", income := 0, expenses := 0, net := 0 } =
        { date := dateToYearMonth
            ((j.cbrDates.getD i (DateEnc.str "", DateEnc.str "")).1)
          income := |((revenueSubreport j).prRows.map
            (fun r => extractAmount (r.prrAmounts.getD i []))).sum|
          expenses := |((expensesSubreport j).prRows.map
            (fun r => extractAmount (r.prrAmounts.getD i []))).sum|
          net := round2
            (|((revenueSubreport j).prRows.map
                (fun r => extractAmount (r.prrAmounts.getD i []))).sum| -
             |((expensesSubreport j).prRows.map
                (fun r => extractAmount (r.prrAmounts.getD i []))).sum|) } := by
  constructor
  · rw [trends_periods_def, List.length_mapIdx, List.length_map]
  · intro i hi
    rw [trends_period_getD j i hi, round2_colSum, round2_colSum,
      colSum_eq_sum, colSum_eq_sum]

/-- Fixture: one period column, a revenue subreport with one row and an
expense subreport with one row. -/
def sampleTrends : TrendsJson :=
  { cbrDates := [(DateEnc.str "2025-09-01", DateEnc.str "2025-09-30")]
    cbrSubreports :=
      [("Revenues",
        { prRows := [{ prrName := "revenues:salary", prrAmounts := [[3000]] }]
          prTotalsTotal := [] }, false),
       ("Expenses",
        { prRows := [{ prrName := "expenses:rent", prrAmounts := [[-1000]] }]
          prTotalsTotal := [] }, true)] }

/-- C3 witness: the theorem applied to `sampleTrends` at column 0. -/
theorem getFinancialTrends_columns_correct_witness :
    (getFinancialTrends sampleTrends).periods.length =
      sampleTrends.cbrDates.length ∧
    (0 < sampleTrends.cbrDates.length ∧
      (getFinancialTrends sampleTrends).periods.getD 0
          { date := "", income := 0, expenses := 0, net := 0 } =
        { date := dateToYearMonth
            ((sampleTrends.cbrDates.getD 0 (DateEnc.str "", DateEnc.str "")).1)
          income := |((revenueSubreport sampleTrends).prRows.map
            (fun r => extractAmount (r.prrAmounts.getD 0 []))).sum|
          expenses := |((expensesSubreport sampleTrends).prRows.map
            (fun r => extractAmount (r.prrAmounts.getD 0 []))).sum|
          net := round2
            (|((revenueSubreport sampleTrends).prRows.map
                (fun r => extractAmount (r.prrAmounts.getD 0 []))).sum| -
             |((expensesSubreport sampleTrends).prRows.map
                (fun r => extractAmount (r.prrAmounts.getD 0 []))).sum|) }) :=
  ⟨(getFinancialTrends_columns_correct sampleTrends).1,
    by decide,
    (getFinancialTrends_columns_correct sampleTrends).2 0 (by decide)⟩

/-- C4: a row with fewer amounts entries than the column index contributes
the Amount Extractor's value on the empty sequence (which is 0, with no
decode error), and a column in which no row has data yields income 0,
expenses 0 and net 0. -/
theorem getFinancialTrends_missing_column_safe (j : TrendsJson) (i : ℕ)
    (hi : i < j.cbrDates.length)
    (hrev : ∀ r ∈ (revenueSubreport j).prRows, r.prrAmounts.getD i [] = [])
    (hexp : ∀ r ∈ (expensesSubreport j).prRows, r.prrAmounts.getD i [] = []) :
    (∀ (r : PRRow) (k : ℕ), r.prrAmounts.length ≤ k →
      extractAmount (r.prrAmounts.getD k []) = 0) ∧
    extractAmountRaw [] = Except.ok (JsNum.num 0) ∧
    (getFinancialTrends j).periods.getD i
        { date := "", income := 0, expenses := 0, net := 0 } =
      { date := dateToYearMonth
          ((j.cbrDates.getD i (DateEnc.str "", DateEnc.str "")).1)
        income := 0, expenses := 0, net := 0 } := by
  refine ⟨?_, rfl, ?_⟩
  · intro r k hk
    rw [List.getD_eq_getElem?_getD, List.getElem?_eq_none hk]
    rfl
  · rw [trends_period_getD j i hi, colSum_of_empty _ _ hrev,
      colSum_of_empty _ _ hexp, round2_zero, abs_zero, sub_zero, round2_zero]

/-- C4 witness: the theorem applied to `sampleTrendsSparse` at column 1,
where the single revenue row and single expense row both lack a second
amounts entry. -/
def sampleTrendsSparse : TrendsJson :=
  { cbrDates := [(DateEnc.str "2025-09-01", DateEnc.str "2025-09-30"),
                 (DateEnc.str "2025-10-01", DateEnc.str "2025-10-31")]
    cbrSubreports :=
      [("Revenues",
        { prRows := [{ prrName := "revenues:salary", prrAmounts := [[3000]] }]
          prTotalsTotal := [] }, false),
       ("Expenses",
        { prRows := [{ prrName := "expenses:rent", prrAmounts := [[-1000]] }]
          prTotalsTotal := [] }, true)] }

theorem getFinancialTrends_missing_column_safe_witness :
    (1 < sampleTrendsSparse.cbrDates.length ∧
      (∀ r ∈ (revenueSubreport sampleTrendsSparse).prRows,
        r.prrAmounts.getD 1 [] = []) ∧
      (∀ r ∈ (expensesSubreport sampleTrendsSparse).prRows,
        r.prrAmounts.getD 1 [] = [])) ∧
    (getFinancialTrends sampleTrendsSparse).periods.getD 1
        { date := "", income := 0, expenses := 0, net := 0 } =
      { date := dateToYearMonth
          ((sampleTrendsSparse.cbrDates.getD 1
            (DateEnc.str "", DateEnc.str "")).1)
        income := 0, expenses := 0, net := 0 } :=
  ⟨⟨by decide, by decide, by decide⟩,
    (getFinancialTrends_missing_column_safe sampleTrendsSparse 1 (by decide)
      (by decide) (by decide)).2.2⟩

/-! ## Breakdown decoder characterization -/

lemma map_getD {α β : Type} (f : α → β) (l : List α) (i : ℕ)
    (hi : i < l.length) (d : β) :
    (l.map f).getD i d = f (l.get ⟨i, hi⟩) := by
  have h' : i < (l.map f).length := by
    rw [List.length_map]
    exact hi
  rw [List.getD_eq_getElem?_getD, List.getElem?_eq_getElem h', Option.getD_some]
  simp [List.getElem_map]

lemma breakdown_categories_def (j : BalJson) (p : String) :
    (getSpendingBreakdown j p).categories = j.rows.map (fun r =>
      { name := stripExpenses r.fullName
        amount := |extractAmount r.amounts|
        percentage :=
          if 0 < |extractAmount j.totals| then
            mathRound (|extractAmount r.amounts| /
              |extractAmount j.totals| * 10000) / 100
          else 0 }) := rfl

lemma round2_pct (a t : ℚ) :
    round2 (a / t * 100) = mathRound (a / t * 10000) / 100 := by
  unfold round2
  have h : a / t * 100 * 100 = a / t * 10000 := by ring
  rw [h]

/-- Default row used with `List.getD` in theorem statements. -/
def defaultBalRow : BalRow :=
  { fullName := "", displayName := "", depth := 0, amounts := [] }

/-- C5: the Category Breakdown decoder outputs one entry per input row in
input order; each entry's amount is |Amount Extractor(row amounts)|, its
percentage is round((amount / total) * 100, 2) when total > 0 and 0
otherwise, with total = |Amount Extractor(totals)|, and its name is the
row's fullName with the leading "expenses:" segment stripped. -/
theorem getSpendingBreakdown_rows_correct (j : BalJson) (p : String) :
    (getSpendingBreakdown j p).total = |extractAmount j.totals| ∧
    (getSpendingBreakdown j p).period = p ∧
    (getSpendingBreakdown j p).categories.length = j.rows.length ∧
    ∀ (i : ℕ), i < j.rows.length →
      (getSpendingBreakdown j p).categories.getD i
          { name := "", amount := 0, percentage := 0 } =
        { name := stripExpenses ((j.rows.getD i defaultBalRow).fullName)
          amount := |extractAmount (j.rows.getD i defaultBalRow).amounts|
          percentage :=
            if 0 < (getSpendingBreakdown j p).total then
              round2 (|extractAmount (j.rows.getD i defaultBalRow).amounts| /
                (getSpendingBreakdown j p).total * 100)
            else 0 } := by
  refine ⟨rfl, rfl, ?_, ?_⟩
  · rw [breakdown_categories_def, List.length_map]
  · intro i hi
    rw [breakdown_categories_def, map_getD _ _ i hi,
      getD_of_lt j.rows i hi defaultBalRow, round2_pct]
    rfl

/-- Fixture: the spec's category-breakdown example scenario. -/
def sampleBal : BalJson :=
  { rows :=
      [{ fullName := "expenses:food", displayName := "expenses:food"
         depth := 1, amounts := [-300] },
       { fullName := "expenses:rent", displayName := "expenses:rent"
         depth := 1, amounts := [-1200] }]
    totals := [-1500] }

/-- C5 witness: the theorem applied to `sampleBal` at row 0. -/
theorem getSpendingBreakdown_rows_correct_witness :
    (getSpendingBreakdown sampleBal "2025-09").categories.length =
      sampleBal.rows.length ∧
    (0 < sampleBal.rows.length ∧
      (getSpendingBreakdown sampleBal "2025-09").categories.getD 0
          { name := "", amount := 0, percentage := 0 } =
        { name := stripExpenses
            ((sampleBal.rows.getD 0 defaultBalRow).fullName)
          amount := |extractAmount (sampleBal.rows.getD 0 defaultBalRow).amounts|
          percentage :=
            if 0 < (getSpendingBreakdown sampleBal "2025-09").total then
              round2 (|extractAmount
                  (sampleBal.rows.getD 0 defaultBalRow).amounts| /
                (getSpendingBreakdown sampleBal "2025-09").total * 100)
            else 0 }) :=
  ⟨(getSpendingBreakdown_rows_correct sampleBal "2025-09").2.2.1,
    by decide,
    (getSpendingBreakdown_rows_correct sampleBal "2025-09").2.2.2 0 (by decide)⟩

/-- C6: when the extracted total is 0 every output percentage is exactly 0
(the division is guarded, so no division error can occur). -/
theorem getSpendingBreakdown_zero_total (j : BalJson) (p : String)
    (h : (getSpendingBreakdown j p).total = 0) :
    ∀ c ∈ (getSpendingBreakdown j p).categories, c.percentage = 0 := by
  intro c hc
  rw [breakdown_categories_def] at hc
  obtain ⟨r, _, rfl⟩ := List.mem_map.mp hc
  have ht : |extractAmount j.totals| = 0 := h
  simp [ht]

/-- Fixture: a breakdown input whose totals sequence is empty, so the
extracted total is 0. -/
def zeroTotalBal : BalJson :=
  { rows :=
      [{ fullName := "expenses:food", displayName := "expenses:food"
         depth := 1, amounts := [-300] }]
    totals := [] }

/-- C6 witness: the theorem applied to `zeroTotalBal` at its first output
row. -/
theorem getSpendingBreakdown_zero_total_witness :
    (getSpendingBreakdown zeroTotalBal "2025-09").total = 0 ∧
    ((getSpendingBreakdown zeroTotalBal "2025-09").categories.getD 0
      { name := "", amount := 0, percentage := 0 }).percentage = 0 := by
  have h : (getSpendingBreakdown zeroTotalBal "2025-09").total = 0 := by
    show |extractAmount ([] : List ℚ)| = 0
    simp [extractAmount]
  refine ⟨h, getSpendingBreakdown_zero_total zeroTotalBal "2025-09" h _ ?_⟩
  rw [getD_of_lt _ 0 (by simp [breakdown_categories_def, zeroTotalBal])]
  exact List.get_mem _ _ _

/-! ## Summary decoder characterization -/

lemma summary_totalIncome_def (j : SummaryJson) :
    (getFinancialSummary j).totalIncome =
      |extractAmount (isSubreportAt j 0).prTotalsTotal| := rfl

lemma summary_totalExpenses_def (j : SummaryJson) :
    (getFinancialSummary j).totalExpenses =
      |extractAmount (isSubreportAt j 1).prTotalsTotal| := rfl

lemma summary_savingsRate_def (j : SummaryJson) :
    (getFinancialSummary j).savingsRate =
      (if 0 < |extractAmount (isSubreportAt j 0).prTotalsTotal| then
        mathRound ((|extractAmount (isSubreportAt j 0).prTotalsTotal| -
          |extractAmount (isSubreportAt j 1).prTotalsTotal|) /
          |extractAmount (isSubreportAt j 0).prTotalsTotal| * 10000) / 100
      else 0) := rfl

lemma summary_cashflow_def (j : SummaryJson) :
    (getFinancialSummary j).cashflow =
      round2 (|extractAmount (isSubreportAt j 0).prTotalsTotal| -
        |extractAmount (isSubreportAt j 1).prTotalsTotal|) := rfl

/-- C7: totalIncome and totalExpenses come from each subreport's own total
field (so they are unchanged under any change to the report that preserves
those two fields — never a row-sum); savingsRate is
round(((income − expenses) / income) * 100, 2) when income > 0 and 0
otherwise; cashflow is round(income − expenses, 2). -/
theorem getFinancialSummary_totals_correct (j j' : SummaryJson)
    (hrev : (isSubreportAt j 0).prTotalsTotal =
      (isSubreportAt j' 0).prTotalsTotal)
    (hexp : (isSubreportAt j 1).prTotalsTotal =
      (isSubreportAt j' 1).prTotalsTotal) :
    (getFinancialSummary j).totalIncome =
      |extractAmount (isSubreportAt j 0).prTotalsTotal| ∧
    (getFinancialSummary j).totalExpenses =
      |extractAmount (isSubreportAt j 1).prTotalsTotal| ∧
    (getFinancialSummary j).savingsRate =
      (if 0 < (getFinancialSummary j).totalIncome then
        round2 (((getFinancialSummary j).totalIncome -
          (getFinancialSummary j).totalExpenses) /
          (getFinancialSummary j).totalIncome * 100)
      else 0) ∧
    (getFinancialSummary j).cashflow =
      round2 ((getFinancialSummary j).totalIncome -
        (getFinancialSummary j).totalExpenses) ∧
    (getFinancialSummary j).totalIncome =
      (getFinancialSummary j').totalIncome ∧
    (getFinancialSummary j).totalExpenses =
      (getFinancialSummary j').totalExpenses ∧
    (getFinancialSummary j).savingsRate =
      (getFinancialSummary j').savingsRate ∧
    (getFinancialSummary j).cashflow = (getFinancialSummary j').cashflow := by
  refine ⟨rfl, rfl, ?_, rfl, ?_, ?_, ?_, ?_⟩
  · rw [summary_savingsRate_def, round2_pct]
    rfl
  · rw [summary_totalIncome_def, summary_totalIncome_def, hrev]
  · rw [summary_totalExpenses_def, summary_totalExpenses_def, hexp]
  · rw [summary_savingsRate_def, summary_savingsRate_def, hrev, hexp]
  · rw [summary_cashflow_def, summary_cashflow_def, hrev, hexp]

/-- Fixture: summary input with authoritative subreport totals 5000
(revenue) and 4000 (expense) and no rows. -/
def sampleSummary : SummaryJson :=
  { bsTotalsTotal := [25000]
    isSubreports :=
      [("Revenues", { prRows := [], prTotalsTotal := [5000] }, false),
       ("Expenses", { prRows := [], prTotalsTotal := [4000] }, true)]
    balRows :=
      [{ fullName := "expenses:rent", displayName := "expenses:rent"
         depth := 2, amounts := [-1200] }] }

/-- Fixture: same subreport totals as `sampleSummary` but with extra rows,
showing the summary ignores rows. -/
def sampleSummaryRows : SummaryJson :=
  { bsTotalsTotal := [0]
    isSubreports :=
      [("Revenues",
        { prRows := [{ prrName := "revenues:other", prrAmounts := [[9999]] }]
          prTotalsTotal := [5000] }, false),
       ("Expenses",
        { prRows := [{ prrName := "expenses:misc", prrAmounts := [[-7]] }]
          prTotalsTotal := [4000] }, true)]
    balRows := [] }

/-- C7 witness: the theorem applied to `sampleSummary` and
`sampleSummaryRows`, whose subreport totals agree. -/
theorem getFinancialSummary_totals_correct_witness :
    (isSubreportAt sampleSummary 0).prTotalsTotal =
      (isSubreportAt sampleSummaryRows 0).prTotalsTotal ∧
    (isSubreportAt sampleSummary 1).prTotalsTotal =
      (isSubreportAt sampleSummaryRows 1).prTotalsTotal ∧
    ((getFinancialSummary sampleSummary).totalIncome =
      (getFinancialSummary sampleSummaryRows).totalIncome ∧
     (getFinancialSummary sampleSummary).savingsRate =
      (getFinancialSummary sampleSummaryRows).savingsRate) :=
  ⟨rfl, rfl,
    (getFinancialSummary_totals_correct sampleSummary sampleSummaryRows
      rfl rfl).2.2.2.2.1,
    (getFinancialSummary_totals_correct sampleSummary sampleSummaryRows
      rfl rfl).2.2.2.2.2.2.1⟩

/-! ## Percentage sum bound -/

lemma pct_sum_le (t : ℚ) (rows : List BalRow) :
    ((rows.map (fun r =>
      mathRound (|extractAmount r.amounts| / t * 10000) / 100)).sum ≤
      (rows.map (fun r => |extractAmount r.amounts|)).sum / t * 100 +
        (rows.length : ℚ) / 200) := by
  induction rows with
  | nil => simp
  | cons r rs ih =>
    simp only [List.map_cons, List.sum_cons, List.length_cons]
    have h1 : mathRound (|extractAmount r.amounts| / t * 10000) / 100 ≤
        |extractAmount r.amounts| / t * 100 + 1 / 200 := by
      unfold mathRound
      have hfl := Int.floor_le (|extractAmount r.amounts| / t * 10000 + 1/2)
      linarith
    have h2 : (|extractAmount r.amounts| +
        (rs.map (fun r => |extractAmount r.amounts|)).sum) / t * 100 =
        |extractAmount r.amounts| / t * 100 +
        (rs.map (fun r => |extractAmount r.amounts|)).sum / t * 100 := by
      ring
    push_cast
    linarith

/-- C9 counterexample: a report whose single row's amount (2) exceeds the
extracted total (1) has total > 0 but percentage sum 200, far above
100 plus any small epsilon (here even above 101). -/
def overBal : BalJson :=
  { rows :=
      [{ fullName := "expenses:a", displayName := "a"
         depth := 1, amounts := [2] }]
    totals := [1] }

theorem percentage_sum_counterexample :
    (0 : ℚ) < (getSpendingBreakdown overBal "2025").total ∧
    ((getSpendingBreakdown overBal "2025").categories.map
      (fun c => c.percentage)).sum = 200 ∧
    ¬ (((getSpendingBreakdown overBal "2025").categories.map
      (fun c => c.percentage)).sum ≤ 100 + 1) := by
  have ht : (getSpendingBreakdown overBal "2025").total = 1 := by
    show |extractAmount [(1 : ℚ)]| = 1
    show |round2 1| = 1
    unfold round2 mathRound
    norm_num
  have hs : ((getSpendingBreakdown overBal "2025").categories.map
      (fun c => c.percentage)).sum = 200 := by
    rw [breakdown_categories_def]
    show (if 0 < |extractAmount [(1 : ℚ)]| then
        mathRound (|extractAmount [(2 : ℚ)]| /
          |extractAmount [(1 : ℚ)]| * 10000) / 100
      else 0) + 0 = 200
    show (if 0 < |round2 1| then
        mathRound (|round2 2| / |round2 1| * 10000) / 100 else 0) + 0 = 200
    unfold round2 mathRound
    norm_num
  refine ⟨by rw [ht]; norm_num, hs, by rw [hs]; norm_num⟩

/-- C9 (amended): when total > 0 AND the rows' extracted absolute amounts
sum to at most the total (as they do for a consistent upstream report), the
percentage sum is at most 100 + n/200, where n is the row count (each
rounding adds at most half of one hundredth of a percent). -/
theorem percentage_sum_bounded (j : BalJson) (p : String)
    (ht : 0 < (getSpendingBreakdown j p).total)
    (hsum : (j.rows.map (fun r => |extractAmount r.amounts|)).sum ≤
      (getSpendingBreakdown j p).total) :
    ((getSpendingBreakdown j p).categories.map (fun c => c.percentage)).sum ≤
      100 + (j.rows.length : ℚ) / 200 := by
  have ht' : 0 < |extractAmount j.totals| := ht
  have hcats : (getSpendingBreakdown j p).categories.map
      (fun c => c.percentage) = j.rows.map (fun r =>
        mathRound (|extractAmount r.amounts| /
          |extractAmount j.totals| * 10000) / 100) := by
    rw [breakdown_categories_def, List.map_map]
    refine List.map_congr_left ?_
    intro r _
    simp only [Function.comp]
    rw [if_pos ht']
  rw [hcats]
  have key := pct_sum_le (|extractAmount j.totals|) j.rows
  have hdiv : (j.rows.map (fun r => |extractAmount r.amounts|)).sum /
      |extractAmount j.totals| ≤ 1 := by
    rw [div_le_one ht']
    exact hsum
  linarith

/-- Fixture: a consistent breakdown input (row amount 0.5, total 1). -/
def consistentBal : BalJson :=
  { rows :=
      [{ fullName := "expenses:a", displayName := "a"
         depth := 1, amounts := [1/2] }]
    totals := [1] }

/-- C9 witness: the amended theorem applied to `consistentBal`. -/
theorem percentage_sum_bounded_witness :
    (0 < (getSpendingBreakdown consistentBal "2025").total ∧
      (consistentBal.rows.map (fun r => |extractAmount r.amounts|)).sum ≤
        (getSpendingBreakdown consistentBal "2025").total) ∧
    ((getSpendingBreakdown consistentBal "2025").categories.map
      (fun c => c.percentage)).sum ≤
      100 + (consistentBal.rows.length : ℚ) / 200 := by
  have ht : (0 : ℚ) < (getSpendingBreakdown consistentBal "2025").total := by
    show (0 : ℚ) < |extractAmount [(1 : ℚ)]|
    show (0 : ℚ) < |round2 1|
    unfold round2 mathRound
    norm_num
  have hsum : (consistentBal.rows.map
      (fun r => |extractAmount r.amounts|)).sum ≤
      (getSpendingBreakdown consistentBal "2025").total := by
    show |extractAmount [(1 : ℚ)/2]| + 0 ≤ |extractAmount [(1 : ℚ)]|
    show |round2 (1/2)| + 0 ≤ |round2 1|
    unfold round2 mathRound
    norm_num
    rw [abs_of_nonneg (by norm_num : (0 : ℚ) ≤ 1/2)]
    norm_num
  exact ⟨⟨ht, hsum⟩, percentage_sum_bounded consistentBal "2025" ht hsum⟩

/-! ## Non-negativity invariants -/

lemma mathRound_div100_nonneg {x : ℚ} (hx : 0 ≤ x) :
    0 ≤ mathRound x / 100 := by
  unfold mathRound
  have h : (0 : ℤ) ≤ ⌊x + 1/2⌋ := by
    rw [Int.le_floor]
    push_cast
    linarith
  exact div_nonneg (by exact_mod_cast h) (by norm_num)

/-- C10: every per-category amount, the breakdown total and every
percentage, every trend income and expenses value, the summary's
totalIncome and totalExpenses, and every top-expense amount are
non-negative for every input. -/
theorem decoder_outputs_nonneg (jb : BalJson) (p : String) (jt : TrendsJson)
    (js : SummaryJson) :
    0 ≤ (getSpendingBreakdown jb p).total ∧
    (∀ c ∈ (getSpendingBreakdown jb p).categories,
      0 ≤ c.amount ∧ 0 ≤ c.percentage) ∧
    (∀ pt ∈ (getFinancialTrends jt).periods,
      0 ≤ pt.income ∧ 0 ≤ pt.expenses) ∧
    0 ≤ (getFinancialSummary js).totalIncome ∧
    0 ≤ (getFinancialSummary js).totalExpenses ∧
    (∀ e ∈ (getFinancialSummary js).topExpenses, 0 ≤ e.amount) := by
  refine ⟨abs_nonneg _, ?_, ?_, abs_nonneg _, abs_nonneg _, ?_⟩
  · intro c hc
    rw [breakdown_categories_def] at hc
    obtain ⟨r, _, rfl⟩ := List.mem_map.mp hc
    refine ⟨abs_nonneg _, ?_⟩
    show 0 ≤ if 0 < |extractAmount jb.totals| then
      mathRound (|extractAmount r.amounts| /
        |extractAmount jb.totals| * 10000) / 100 else 0
    split
    · apply mathRound_div100_nonneg
      have ht : (0 : ℚ) ≤ |extractAmount jb.totals| := abs_nonneg _
      positivity
    · exact le_refl 0
  · intro pt hpt
    rw [trends_periods_def] at hpt
    obtain ⟨i, h, rfl⟩ := List.exists_of_mem_mapIdx hpt
    exact ⟨abs_nonneg _, abs_nonneg _⟩
  · intro e he
    obtain ⟨r, _, rfl⟩ := List.mem_map.mp he
    exact abs_nonneg _

/-- C10 witness: the theorem applied to the sample fixtures, evaluated at
each relevant first output element. -/
theorem decoder_outputs_nonneg_witness :
    0 ≤ (getSpendingBreakdown sampleBal "2025-09").total ∧
    0 ≤ ((getSpendingBreakdown sampleBal "2025-09").categories.getD 0
      { name := "", amount := 0, percentage := 0 }).amount ∧
    0 ≤ ((getSpendingBreakdown sampleBal "2025-09").categories.getD 0
      { name := "", amount := 0, percentage := 0 }).percentage ∧
    0 ≤ ((getFinancialTrends sampleTrends).periods.getD 0
      { date := "", income := 0, expenses := 0, net := 0 }).income ∧
    0 ≤ (getFinancialSummary sampleSummary).totalIncome ∧
    0 ≤ ((getFinancialSummary sampleSummary).topExpenses.getD 0
      { name := "", amount := 0 }).amount := by
  have h := decoder_outputs_nonneg sampleBal "2025-09" sampleTrends
    sampleSummary
  have hcats : (0 : ℕ) <
      (getSpendingBreakdown sampleBal "2025-09").categories.length := by
    rw [breakdown_categories_def, List.length_map]
    decide
  have hcmem : (getSpendingBreakdown sampleBal "2025-09").categories.getD 0
      { name := "", amount := 0, percentage := 0 } ∈
      (getSpendingBreakdown sampleBal "2025-09").categories := by
    rw [getD_of_lt _ 0 hcats]
    exact List.get_mem _ _ _
  have hplen : (0 : ℕ) < (getFinancialTrends sampleTrends).periods.length := by
    rw [trends_periods_def, List.length_mapIdx, List.length_map]
    decide
  have hpmem : (getFinancialTrends sampleTrends).periods.getD 0
      { date := "", income := 0, expenses := 0, net := 0 } ∈
      (getFinancialTrends sampleTrends).periods := by
    rw [getD_of_lt _ 0 hplen]
    exact List.get_mem _ _ _
  have htlen : (0 : ℕ) <
      (getFinancialSummary sampleSummary).topExpenses.length := by
    decide
  have htmem : (getFinancialSummary sampleSummary).topExpenses.getD 0
      { name := "", amount := 0 } ∈
      (getFinancialSummary sampleSummary).topExpenses := by
    rw [getD_of_lt _ 0 htlen]
    exact List.get_mem _ _ _
  exact ⟨h.1, (h.2.1 _ hcmem).1, (h.2.1 _ hcmem).2, (h.2.2.1 _ hpmem).1,
    h.2.2.2.1, h.2.2.2.2.2 _ htmem⟩

end Hledger
